import Mathlib

/-!
Shallow embedding of the serverless email-verification handler.

The repository contains two variants of one AWS Lambda handler:
* `src/index.js` (called V1 below): reads configuration from dotenv
  environment variables, generates a 16-byte token.
* `src/unnamed/part_000` (called V2 below): additionally fetches the RDS
  password and the SendGrid API key from AWS Secrets Manager in a
  module-level async IIFE, generates a 20-byte token, and logs richly.

External collaborators (the JS runtime primitives `JSON.parse`,
`encodeURIComponent`, `Buffer.toString('hex')`, the SendGrid client, the
Sequelize datastore, AWS Secrets Manager and the system clock) are
modelled as follows:
* dynamic JS values are `JsValue`; `JSON.parse` of the SNS message is
  modelled by its outcome (`ParsedMessage`), since the parser itself is a
  runtime builtin, not repository code;
* `crypto.randomBytes(n)` is an injected source `rand : Nat → List Nat`
  (bytes as naturals), applied by each handler at the byte count the
  source requests (16 in V1, 20 in V2);
* the clock is an injected `now : Int` (milliseconds since epoch, the
  value of `Date.now()`);
* success or failure of the SendGrid send, the `sequelize.sync()` call
  and the `EmailTracking.create` call are injected booleans, and every
  attempted outbound call is recorded in a trace (`Call`);
* `console.log`/`console.error` calls are recorded as abstract `LogEntry`
  values carrying the dynamic data that the source interpolates.
-/

/-- Dynamic JavaScript values, as far as the handler can observe them
(`JSON.parse` results and values flowing through the handler). -/
inductive JsValue where
  | undefined : JsValue
  | null : JsValue
  | bool (b : Bool) : JsValue
  | num (n : Int) : JsValue
  | str (s : String) : JsValue
  | arr (elems : List JsValue) : JsValue
  | obj (fields : List (String × JsValue)) : JsValue
deriving Repr

/-- JavaScript truthiness, used by the source's `if (!email)` check.
(`NaN` is not representable since numbers are modelled as integers.) -/
def truthy : JsValue → Bool
  | .undefined => false
  | .null => false
  | .bool b => b
  | .num n => n != 0
  | .str s => s != ""
  | .arr _ => true
  | .obj _ => true

/-- JavaScript property read `v[key]`, as used by the destructuring
`const { email } = snsMessage`: `undefined` on non-objects and missing
keys.  `JSON.parse` output has unique keys (a later duplicate wins during
parsing), so first-match lookup is faithful. -/
def jsGetField (v : JsValue) (key : String) : JsValue :=
  match v with
  | .obj fields =>
    match fields.find? (fun f => f.1 == key) with
    | some f => f.2
    | none => .undefined
  | _ => .undefined

/-- JavaScript ToString coercion, used by template literals and by
`encodeURIComponent` before percent-encoding.  Primitive values follow
ECMA-262; `num` covers the integer-valued numbers the model admits;
array serialization is abstracted (no claim involves a non-primitive
`email` value). -/
def jsToString : JsValue → String
  | .undefined => "undefined"
  | .null => "null"
  | .bool true => "true"
  | .bool false => "false"
  | .num n => toString n
  | .str s => s
  | .arr _ => ""
  | .obj _ => "[object Object]"

/-- Lower-case hex digit, as produced by Node `Buffer.toString('hex')`. -/
def hexDigitL (n : Nat) : Char :=
  if n < 10 then Char.ofNat (48 + n) else Char.ofNat (87 + n)

/-- Upper-case hex digit, as produced by `encodeURIComponent` escapes. -/
def hexDigitU (n : Nat) : Char :=
  if n < 10 then Char.ofNat (48 + n) else Char.ofNat (55 + n)

/-- Hex expansion of a byte list: two lower-case hex digits per byte. -/
def hexChars : List Nat → List Char
  | [] => []
  | b :: bs => hexDigitL (b / 16 % 16) :: hexDigitL (b % 16) :: hexChars bs

/-- Node `Buffer.toString('hex')`: lower-case hex encoding of the bytes
returned by `crypto.randomBytes`. -/
def toHex (bs : List Nat) : String := String.mk (hexChars bs)

/-- Lower-case hexadecimal digit test, for stating that the token is
hex-encoded. -/
def isHexDigitChar (c : Char) : Bool :=
  (48 ≤ c.toNat && c.toNat ≤ 57) || (97 ≤ c.toNat && c.toNat ≤ 102)

/-- Bytes left unescaped by `encodeURIComponent` (ECMA-262:
`A–Z a–z 0–9 - _ . ! ~ * ' ( )`). -/
def uriUnreserved (b : Nat) : Bool :=
  (65 ≤ b && b ≤ 90) || (97 ≤ b && b ≤ 122) || (48 ≤ b && b ≤ 57) ||
  b == 45 || b == 95 || b == 46 || b == 33 || b == 126 ||
  b == 42 || b == 39 || b == 40 || b == 41

/-- UTF-8 encoding of one Unicode scalar value. -/
def utf8Bytes (c : Nat) : List Nat :=
  if c < 128 then [c]
  else if c < 2048 then [192 + c / 64, 128 + c % 64]
  else if c < 65536 then [224 + c / 4096, 128 + c / 64 % 64, 128 + c % 64]
  else [240 + c / 262144, 128 + c / 4096 % 64, 128 + c / 64 % 64, 128 + c % 64]

/-- UTF-8 encoding of a character sequence. -/
def utf8Encode (cs : List Char) : List Nat :=
  (cs.map (fun c => utf8Bytes c.toNat)).flatten

/-- Percent-encoding of a byte sequence: unreserved bytes pass through,
all others become `%XX` with upper-case hex. -/
def encodeBytes : List Nat → List Char
  | [] => []
  | b :: bs =>
    (if uriUnreserved b then [Char.ofNat b]
     else ['%', hexDigitU (b / 16 % 16), hexDigitU (b % 16)]) ++ encodeBytes bs

/-- ECMA-262 `encodeURIComponent` (ASCII-faithful; multi-byte characters
are percent-encoded per UTF-8 byte; lone surrogates cannot arise since
Lean characters are Unicode scalars). -/
def encodeURIComponent (s : String) : String :=
  String.mk (encodeBytes (utf8Encode s.data))

/-- Outcome of `JSON.parse` on the raw `Sns.Message` string: the parser
is a runtime builtin, so the message is modelled by what it parses to
(`invalidJson` when `JSON.parse` throws a `SyntaxError`). -/
inductive ParsedMessage where
  | invalidJson : ParsedMessage
  | json (v : JsValue) : ParsedMessage
deriving Repr

/-- The `Sns` sub-object of an inbound record. -/
structure SnsPayload where
  Message : ParsedMessage
deriving Repr

/-- One element of the event's `Records` array. -/
structure EventRecord where
  Sns : SnsPayload
deriving Repr

/-- The dynamic value of `event.Records`: `missing` covers every falsy
value (absent, `undefined`, `null`, …, for which `!event.Records` is
true), `notArray` every truthy non-array value (rejected by
`!Array.isArray(event.Records)`). -/
inductive RecordsValue where
  | missing : RecordsValue
  | notArray : RecordsValue
  | array (rs : List EventRecord) : RecordsValue
deriving Repr

/-- The inbound Lambda event. -/
structure Event where
  Records : RecordsValue
deriving Repr

/-- The environment variables both handler variants read at request time
(`process.env.DOMAIN_NAME`, `process.env.SENDGRID_FROM_EMAIL`). -/
structure Env where
  DOMAIN_NAME : String
  SENDGRID_FROM_EMAIL : String
deriving Repr

/-- The value `{ token, link, expiryTime }` returned by
`generateVerificationLink` (V2 names the third component
`expirationTime`; the structure is the same).  Times are milliseconds
since epoch. -/
structure VerificationLink where
  token : String
  link : String
  expiryTime : Int
deriving Repr

/-- V1 `generateVerificationLink` (src/index.js lines 44-52), with the
bytes drawn by `crypto.randomBytes` and the value of `Date.now()`
injected.  The `console.log(token)` call is recorded by the handler. -/
def generateVerificationLinkV1 (env : Env) (bytes : List Nat) (now : Int)
    (email : JsValue) : VerificationLink :=
  { token := toHex bytes
    link := "http://" ++ env.DOMAIN_NAME ++ "/verify?email=" ++
      encodeURIComponent (jsToString email) ++ "&token=" ++ toHex bytes
    expiryTime := now + 2 * 60 * 1000 }

/-- V2 `generateVerificationLink` (src/unnamed/part_000 lines 73-79):
the body is the same as V1 apart from logging; the byte count difference
(20 instead of 16) lives at the call site of `crypto.randomBytes`. -/
def generateVerificationLinkV2 (env : Env) (bytes : List Nat) (now : Int)
    (email : JsValue) : VerificationLink :=
  { token := toHex bytes
    link := "http://" ++ env.DOMAIN_NAME ++ "/verify?email=" ++
      encodeURIComponent (jsToString email) ++ "&token=" ++ toHex bytes
    expiryTime := now + 2 * 60 * 1000 }

/-- The HTML body template shared verbatim by both variants (template
literal of src/index.js lines 60-64 and src/unnamed/part_000 lines
87-91). -/
def emailHtml (link : String) : String :=
  "\n      <p>Thank you for signing up! Please verify your email address by clicking the link below:</p>\n      <p><a href=\"" ++
  link ++ "\"" ++ ">Verify Email</a></p>\n      <p>This link will expire in 2 minutes.</p>\n    "

/-- The message object handed to `sgMail.send` (`to` and `from` are Lean
keywords, hence the field names `toAddr` and `fromAddr`). -/
structure EmailPayload where
  toAddr : JsValue
  fromAddr : String
  subject : String
  html : String
deriving Repr

/-- V1 `emailContent` (src/index.js lines 56-65). -/
def emailContentV1 (env : Env) (email : JsValue) (link : String) : EmailPayload :=
  { toAddr := email
    fromAddr := env.SENDGRID_FROM_EMAIL
    subject := "Verify Your Email"
    html := emailHtml link }

/-- V2 `emailContent` (src/unnamed/part_000 lines 83-92): identical to V1. -/
def emailContentV2 (env : Env) (email : JsValue) (link : String) : EmailPayload :=
  { toAddr := email
    fromAddr := env.SENDGRID_FROM_EMAIL
    subject := "Verify Your Email"
    html := emailHtml link }

/-- The internal error raised inside the handler's `try` block, before
the `catch` wraps it into the generic failure.  Spec taxonomy:
`noRecords`, `invalidJson`, `nullMessage` and `missingEmail` are the
`MalformedEventError` cases, `emailSendFailed` is `EmailDeliveryError`,
`dbFailed` is `PersistenceError`. -/
inductive InternalError where
  | noRecords : InternalError
  | invalidJson : InternalError
  | nullMessage : InternalError
  | missingEmail : InternalError
  | emailSendFailed : InternalError
  | dbFailed : InternalError
deriving Repr, DecidableEq

/-- The `error.message` seen by the V2 catch logging.  The `invalidJson`,
`nullMessage` and `dbFailed` texts come from the JS engine respectively
the ORM, not from repository code, and are abstracted to fixed strings. -/
def InternalError.message : InternalError → String
  | .noRecords => "Invalid event structure: No Records found"
  | .invalidJson => "Unexpected token in JSON"
  | .nullMessage => "Cannot destructure property email of null"
  | .missingEmail => "Invalid SNS message: Missing email field"
  | .emailSendFailed => "Failed to send verification email"
  | .dbFailed => "Database operation failed"

/-- Spec classification: the errors of steps 1-2 (envelope validation and
message extraction) are `MalformedEventError`. -/
def InternalError.isMalformedEvent : InternalError → Bool
  | .noRecords => true
  | .invalidJson => true
  | .nullMessage => true
  | .missingEmail => true
  | .emailSendFailed => false
  | .dbFailed => false

/-- One `console.log`/`console.error` call, abstracted to the call site
and the dynamic data it interpolates.  `eventReceived` carries the whole
event, because src/unnamed/part_000 line 106 logs
`JSON.stringify(event, null, 2)` — including every record, not just
`Records[0]`. -/
inductive LogEntry where
  | tokenLog (token : String) : LogEntry
  | eventReceived (event : Event) : LogEntry
  | receivedEmail (email : JsValue) : LogEntry
  | generatedToken (token : String) (expiry : Int) (email : JsValue) : LogEntry
  | attemptSend (email : JsValue) (link : String) : LogEntry
  | sentOk (email : JsValue) : LogEntry
  | sendError : LogEntry
  | syncing : LogEntry
  | synced : LogEntry
  | sentAndLogged (email : JsValue) : LogEntry
  | invalidEventStructure : LogEntry
  | invalidSnsMessage : LogEntry
  | handlingError (msg : String) : LogEntry
  | errorStack : LogEntry
  | secretError (name : String) : LogEntry
  | initError (msg : String) : LogEntry
deriving Repr

/-- Log entries produced on `console.error`, i.e. the entries that report
a failure (as opposed to progress logging). -/
def LogEntry.isFailureLog : LogEntry → Bool
  | .sendError => true
  | .invalidEventStructure => true
  | .invalidSnsMessage => true
  | .handlingError _ => true
  | .errorStack => true
  | .secretError _ => true
  | .initError _ => true
  | _ => false

/-- The row passed to `EmailTracking.create`. -/
structure TrackingRow where
  email : JsValue
  token : String
  expiryTime : Int
deriving Repr

/-- One attempted outbound call to an external collaborator, in program
order.  The source contains no update or delete call on the tracking
table, so the alphabet has none. -/
inductive Call where
  | emailSend (payload : EmailPayload) : Call
  | dbSync : Call
  | dbCreate (row : TrackingRow) : Call
deriving Repr

/-- Datastore calls (`sequelize.sync()` and `EmailTracking.create`). -/
def Call.isDbCall : Call → Bool
  | .emailSend _ => false
  | .dbSync => true
  | .dbCreate _ => true

/-- The observable outcome of one handler invocation: the value or
rejection seen by the caller, the internal error that the catch block
received (if any), the attempted outbound calls, and the console log. -/
structure HandlerResult where
  result : Except String Unit
  internalErr : Option InternalError
  calls : List Call
  logs : List LogEntry
deriving Repr

/-- The message of the generic error rethrown by both catch blocks. -/
def failMsg : String := "Verification process failed"

/-- Steps 1-2 of both handlers (envelope validation and email
extraction, src/index.js lines 82-92 = src/unnamed/part_000 lines
110-122): reject a missing/non-array/empty `Records`, a message that
`JSON.parse` rejects, a `null` message (destructuring `null` throws a
`TypeError`), and a falsy `email` (`if (!email)`); otherwise return the
extracted `email` value. -/
def parseEvent (event : Event) : Except InternalError JsValue :=
  match event.Records with
  | .missing => .error .noRecords
  | .notArray => .error .noRecords
  | .array [] => .error .noRecords
  | .array (r :: _) =>
    match r.Sns.Message with
    | .invalidJson => .error .invalidJson
    | .json .null => .error .nullMessage
    | .json v =>
      if truthy (jsGetField v "email") then .ok (jsGetField v "email")
      else .error .missingEmail

/-- The `console.error` that V2 performs inside the `try` block just
before throwing, by validation failure kind (src/unnamed/part_000 lines
111 and 120; parse and destructuring failures throw without a preceding
log). -/
def v2ValidationLog : InternalError → List LogEntry
  | .noRecords => [.invalidEventStructure]
  | .missingEmail => [.invalidSnsMessage]
  | _ => []

/-- V1 handler (src/index.js lines 77-115).  `rand` is the
`crypto.randomBytes` collaborator, `now` the value of `Date.now()`;
`emailOk`, `syncOk`, `createOk` inject the success of `sgMail.send`,
`sequelize.sync()` and `EmailTracking.create`.  The V1 catch blocks log
nothing. -/
def handlerV1 (env : Env) (rand : Nat → List Nat) (now : Int)
    (emailOk syncOk createOk : Bool) (event : Event) : HandlerResult :=
  match parseEvent event with
  | .error e =>
    { result := .error failMsg, internalErr := some e, calls := [], logs := [] }
  | .ok email =>
    let g := generateVerificationLinkV1 env (rand 16) now email
    let payload := emailContentV1 env email g.link
    if emailOk then
      if syncOk then
        if createOk then
          { result := .ok (), internalErr := none
            calls := [.emailSend payload, .dbSync,
              .dbCreate { email := email, token := g.token, expiryTime := g.expiryTime }]
            logs := [.tokenLog g.token, .tokenLog g.token] }
        else
          { result := .error failMsg, internalErr := some .dbFailed
            calls := [.emailSend payload, .dbSync,
              .dbCreate { email := email, token := g.token, expiryTime := g.expiryTime }]
            logs := [.tokenLog g.token, .tokenLog g.token] }
      else
        { result := .error failMsg, internalErr := some .dbFailed
          calls := [.emailSend payload, .dbSync]
          logs := [.tokenLog g.token] }
    else
      { result := .error failMsg, internalErr := some .emailSendFailed
        calls := [.emailSend payload]
        logs := [.tokenLog g.token] }

/-- V2 handler (src/unnamed/part_000 lines 105-148): same control flow
as V1 with a 20-byte token, entry/progress logging, and catch blocks
that log the internal error message and stack before rethrowing the
generic failure. -/
def handlerV2 (env : Env) (rand : Nat → List Nat) (now : Int)
    (emailOk syncOk createOk : Bool) (event : Event) : HandlerResult :=
  match parseEvent event with
  | .error e =>
    { result := .error failMsg, internalErr := some e, calls := []
      logs := [.eventReceived event] ++ v2ValidationLog e ++
        [.handlingError e.message, .errorStack] }
  | .ok email =>
    let g := generateVerificationLinkV2 env (rand 20) now email
    let payload := emailContentV2 env email g.link
    let lead := [LogEntry.eventReceived event, .receivedEmail email,
      .generatedToken g.token g.expiryTime email, .attemptSend email g.link]
    if emailOk then
      if syncOk then
        if createOk then
          { result := .ok (), internalErr := none
            calls := [.emailSend payload, .dbSync,
              .dbCreate { email := email, token := g.token, expiryTime := g.expiryTime }]
            logs := lead ++ [.sentOk email, .syncing, .synced, .sentAndLogged email] }
        else
          { result := .error failMsg, internalErr := some .dbFailed
            calls := [.emailSend payload, .dbSync,
              .dbCreate { email := email, token := g.token, expiryTime := g.expiryTime }]
            logs := lead ++ [.sentOk email, .syncing, .synced,
              .handlingError InternalError.dbFailed.message, .errorStack] }
      else
        { result := .error failMsg, internalErr := some .dbFailed
          calls := [.emailSend payload, .dbSync]
          logs := lead ++ [.sentOk email, .syncing,
            .handlingError InternalError.dbFailed.message, .errorStack] }
    else
      { result := .error failMsg, internalErr := some .emailSendFailed
        calls := [.emailSend payload]
        logs := lead ++ [.sendError,
          .handlingError InternalError.emailSendFailed.message, .errorStack] }

/-- V2 `getSecret` (src/unnamed/part_000 lines 14-22).  The Secrets
Manager collaborator is `store`: for a secret name it yields the parsed
`SecretString`, or `none` when the call fails (or its payload is not
valid JSON — both paths land in the same catch).  On failure it logs and
throws the message the source builds. -/
def getSecret (store : String → Option JsValue) (name : String) :
    Except String JsValue × List LogEntry :=
  match store name with
  | some v => (.ok v, [])
  | none => (.error ("Failed to retrieve secret: " ++ name), [.secretError name])

/-- The module-level mutable state that V2's async IIFE
(src/unnamed/part_000 lines 25-42) leaves behind: the two secret values
(`none` = still `undefined`) and the console log.  The IIFE has no
result field for a raised error because its catch block swallows every
error after logging — module evaluation always completes. -/
structure ModuleState where
  rdsPassword : Option JsValue
  sendGridApiKey : Option JsValue
  logs : List LogEntry
deriving Repr

/-- V2 module-level async IIFE (src/unnamed/part_000 lines 27-42):
fetch `rds-db-password`, then `sendgrid-api-key`, assigning each as it
arrives; on any failure log `Error initializing secrets` and return
normally. -/
def initSecrets (store : String → Option JsValue) : ModuleState :=
  match getSecret store "rds-db-password" with
  | (.error msg, lg) =>
    { rdsPassword := none, sendGridApiKey := none
      logs := lg ++ [.initError msg] }
  | (.ok rdsSecret, lg1) =>
    match getSecret store "sendgrid-api-key" with
    | (.error msg, lg2) =>
      { rdsPassword := some (jsGetField rdsSecret "password")
        sendGridApiKey := none
        logs := lg1 ++ lg2 ++ [.initError msg] }
    | (.ok sgSecret, lg2) =>
      { rdsPassword := some (jsGetField rdsSecret "password")
        sendGridApiKey := some (jsGetField sgSecret "api_key")
        logs := lg1 ++ lg2 }

/-- A Secrets Manager in which every lookup fails. -/
def emptyStore : String → Option JsValue := fun _ => none

/-- Concrete environment used by the witnesses. -/
def env0 : Env :=
  { DOMAIN_NAME := "example.org", SENDGRID_FROM_EMAIL := "noreply@example.org" }

/-- Deterministic byte source used by the witnesses: `n` bytes
`0, 1, …, n-1`. -/
def randDet : Nat → List Nat := fun n => List.range n

/-- A well-formed inbound record carrying `{"email":"user@example.com"}`. -/
def record0 : EventRecord :=
  { Sns := { Message := .json (.obj [("email", .str "user@example.com")]) } }

/-- A well-formed event with one record. -/
def event0 : Event := { Records := .array [record0] }

theorem hexChars_length (bs : List Nat) : (hexChars bs).length = 2 * bs.length := by
  induction bs with
  | nil => rfl
  | cons b bs ih => simp [hexChars, ih]; omega

theorem toHex_length (bs : List Nat) : (toHex bs).length = 2 * bs.length := by
  simpa [toHex, String.length] using hexChars_length bs

theorem hexDigitL_isHex : ∀ n < 16, isHexDigitChar (hexDigitL n) = true := by decide

theorem hexChars_all_hex (bs : List Nat) :
    (hexChars bs).all isHexDigitChar = true := by
  induction bs with
  | nil => rfl
  | cons b bs ih =>
    simp only [hexChars, List.all_cons, ih, Bool.and_true]
    rw [hexDigitL_isHex _ (Nat.mod_lt _ (by omega)),
      hexDigitL_isHex _ (Nat.mod_lt _ (by omega))]
    rfl

theorem toHex_all_hex (bs : List Nat) :
    (toHex bs).data.all isHexDigitChar = true := hexChars_all_hex bs

theorem toHex_ne_empty (bs : List Nat) (h : bs ≠ []) : toHex bs ≠ "" := by
  intro he
  have hl : (toHex bs).length = 0 := by rw [he]; rfl
  rw [toHex_length] at hl
  cases bs with
  | nil => exact h rfl
  | cons b bs => simp at hl

/-- The events claim C2 ranges over: missing `Records`, non-array
`Records`, empty `Records`, first message rejected by `JSON.parse`, or
first message lacking an `email` field (including a `null` message,
which has no fields). -/
def malformedEventCase (event : Event) : Prop :=
  event.Records = .missing ∨ event.Records = .notArray ∨
  event.Records = .array [] ∨
  ∃ r rs, event.Records = .array (r :: rs) ∧
    (r.Sns.Message = .invalidJson ∨
     ∃ v, r.Sns.Message = .json v ∧ jsGetField v "email" = .undefined)

theorem parseEvent_malformed (event : Event) (h : malformedEventCase event) :
    ∃ e, parseEvent event = .error e ∧ e.isMalformedEvent = true := by
  rcases h with h | h | h | ⟨r, rs, hev, hr | ⟨v, hv, hf⟩⟩
  · exact ⟨.noRecords, by simp [parseEvent, h], rfl⟩
  · exact ⟨.noRecords, by simp [parseEvent, h], rfl⟩
  · exact ⟨.noRecords, by simp [parseEvent, h], rfl⟩
  · exact ⟨.invalidJson, by simp [parseEvent, hev, hr], rfl⟩
  · cases v
    case null => exact ⟨.nullMessage, by simp [parseEvent, hev, hv], rfl⟩
    all_goals exact ⟨.missingEmail, by simp [parseEvent, hev, hv, hf, truthy], rfl⟩

/-- C1: if the email-send collaborator reports failure, both handler
variants reject with the generic error and never invoke the datastore
collaborator (no sync, no row written) in that invocation. -/
theorem c1_email_failure_aborts_without_persisting :
    ∀ (env : Env) (rand : Nat → List Nat) (now : Int) (syncOk createOk : Bool)
      (event : Event),
      ((handlerV1 env rand now false syncOk createOk event).result = .error failMsg ∧
       (handlerV1 env rand now false syncOk createOk event).calls.all
         (fun c => ! c.isDbCall) = true) ∧
      ((handlerV2 env rand now false syncOk createOk event).result = .error failMsg ∧
       (handlerV2 env rand now false syncOk createOk event).calls.all
         (fun c => ! c.isDbCall) = true) := by
  intro env rand now syncOk createOk event
  cases hp : parseEvent event with
  | error e => simp [handlerV1, handlerV2, hp]
  | ok email => simp [handlerV1, handlerV2, hp, Call.isDbCall]

/-- C2: for every event with missing, non-array or empty `Records`, and
for every event whose first embedded message is not valid JSON or lacks
an `email` field, both variants fail with a `MalformedEventError`-class
internal error, reject with the generic error, and make no outbound
calls. -/
theorem c2_malformed_event_no_calls :
    ∀ (env : Env) (rand : Nat → List Nat) (now : Int)
      (emailOk syncOk createOk : Bool) (event : Event),
      malformedEventCase event →
      (∃ e, (handlerV1 env rand now emailOk syncOk createOk event).internalErr = some e ∧
        e.isMalformedEvent = true) ∧
      (handlerV1 env rand now emailOk syncOk createOk event).result = .error failMsg ∧
      (handlerV1 env rand now emailOk syncOk createOk event).calls = [] ∧
      (∃ e, (handlerV2 env rand now emailOk syncOk createOk event).internalErr = some e ∧
        e.isMalformedEvent = true) ∧
      (handlerV2 env rand now emailOk syncOk createOk event).result = .error failMsg ∧
      (handlerV2 env rand now emailOk syncOk createOk event).calls = [] := by
  intro env rand now emailOk syncOk createOk event h
  obtain ⟨e, hpe, hm⟩ := parseEvent_malformed event h
  refine ⟨⟨e, ?_, hm⟩, ?_, ?_, ⟨e, ?_, hm⟩, ?_, ?_⟩ <;>
    simp [handlerV1, handlerV2, hpe]

/-- C2 witness: a concrete event with an empty `Records` list is
rejected by both variants with a malformed-event error and no outbound
calls. -/
theorem c2_malformed_event_no_calls_witness :
    (∃ e, (handlerV1 env0 randDet 0 true true true { Records := .array [] }).internalErr
        = some e ∧ e.isMalformedEvent = true) ∧
    (handlerV1 env0 randDet 0 true true true { Records := .array [] }).result
      = .error failMsg ∧
    (handlerV1 env0 randDet 0 true true true { Records := .array [] }).calls = [] ∧
    (∃ e, (handlerV2 env0 randDet 0 true true true { Records := .array [] }).internalErr
        = some e ∧ e.isMalformedEvent = true) ∧
    (handlerV2 env0 randDet 0 true true true { Records := .array [] }).result
      = .error failMsg ∧
    (handlerV2 env0 randDet 0 true true true { Records := .array [] }).calls = [] :=
  c2_malformed_event_no_calls env0 randDet 0 true true true { Records := .array [] }
    (Or.inr (Or.inr (Or.inl rfl)))

/-- C8: only `Records[0]` is consulted — two events that agree on the
first record of a non-empty record list but differ arbitrarily in the
later records exhibit identical behavior in both variants, given the
same injected randomness: V1 produces fully identical results (outcome,
internal error, calls, logs), and V2 the same outcome, internal error
and outbound calls (same email payload and persisted record); V2's
console output differs only in its very first entry, the verbatim dump
of the incoming event (`JSON.stringify(event)`), and coincides from the
second entry on. -/
theorem c8_only_first_record_consulted :
    ∀ (env : Env) (rand : Nat → List Nat) (now : Int)
      (emailOk syncOk createOk : Bool)
      (r : EventRecord) (rs1 rs2 : List EventRecord),
      handlerV1 env rand now emailOk syncOk createOk { Records := .array (r :: rs1) } =
        handlerV1 env rand now emailOk syncOk createOk { Records := .array (r :: rs2) } ∧
      (handlerV2 env rand now emailOk syncOk createOk { Records := .array (r :: rs1) }).result =
        (handlerV2 env rand now emailOk syncOk createOk { Records := .array (r :: rs2) }).result ∧
      (handlerV2 env rand now emailOk syncOk createOk { Records := .array (r :: rs1) }).internalErr =
        (handlerV2 env rand now emailOk syncOk createOk { Records := .array (r :: rs2) }).internalErr ∧
      (handlerV2 env rand now emailOk syncOk createOk { Records := .array (r :: rs1) }).calls =
        (handlerV2 env rand now emailOk syncOk createOk { Records := .array (r :: rs2) }).calls ∧
      (handlerV2 env rand now emailOk syncOk createOk { Records := .array (r :: rs1) }).logs.tail =
        (handlerV2 env rand now emailOk syncOk createOk { Records := .array (r :: rs2) }).logs.tail := by
  intro env rand now emailOk syncOk createOk r rs1 rs2
  have hpe : parseEvent { Records := .array (r :: rs2) } =
      parseEvent { Records := .array (r :: rs1) } := rfl
  refine ⟨rfl, ?_, ?_, ?_, ?_⟩ <;>
    cases hp : parseEvent { Records := .array (r :: rs1) } with
    | error e => simp [handlerV2, hp, hpe.trans hp]
    | ok email =>
      cases emailOk <;> cases syncOk <;> cases createOk <;>
        simp [handlerV2, hp, hpe.trans hp]

theorem parseEvent_ok_truthy :
    ∀ (event : Event) (email : JsValue),
      parseEvent event = .ok email → truthy email = true := by
  intro ⟨recs⟩ email hp
  cases recs with
  | missing => simp [parseEvent] at hp
  | notArray => simp [parseEvent] at hp
  | array rs =>
    cases rs with
    | nil => simp [parseEvent] at hp
    | cons r rs =>
      cases hm : r.Sns.Message with
      | invalidJson => simp [parseEvent, hm] at hp
      | json v =>
        cases v <;> simp [parseEvent, hm] at hp <;> split at hp <;> simp_all

theorem parseEvent_cons_json (r : EventRecord) (rs : List EventRecord)
    (v email : JsValue) (hmsg : r.Sns.Message = .json v)
    (hp : parseEvent { Records := .array (r :: rs) } = .ok email) :
    email = jsGetField v "email" := by
  cases v <;> simp [parseEvent, hmsg] at hp <;> split at hp <;> simp_all

theorem handlerV1_dbCreate_mem (env : Env) (rand : Nat → List Nat) (now : Int)
    (emailOk syncOk createOk : Bool) (event : Event) (row : TrackingRow)
    (hmem : Call.dbCreate row ∈ (handlerV1 env rand now emailOk syncOk createOk event).calls) :
    ∃ email, parseEvent event = .ok email ∧
      row = { email := email, token := toHex (rand 16), expiryTime := now + 2 * 60 * 1000 } := by
  cases hp : parseEvent event with
  | error e => simp [handlerV1, hp] at hmem
  | ok email =>
    refine ⟨email, rfl, ?_⟩
    cases emailOk <;> cases syncOk <;> cases createOk <;>
      simp [handlerV1, hp, generateVerificationLinkV1, emailContentV1] at hmem <;>
      exact hmem

theorem handlerV2_dbCreate_mem (env : Env) (rand : Nat → List Nat) (now : Int)
    (emailOk syncOk createOk : Bool) (event : Event) (row : TrackingRow)
    (hmem : Call.dbCreate row ∈ (handlerV2 env rand now emailOk syncOk createOk event).calls) :
    ∃ email, parseEvent event = .ok email ∧
      row = { email := email, token := toHex (rand 20), expiryTime := now + 2 * 60 * 1000 } := by
  cases hp : parseEvent event with
  | error e => simp [handlerV2, hp] at hmem
  | ok email =>
    refine ⟨email, rfl, ?_⟩
    cases emailOk <;> cases syncOk <;> cases createOk <;>
      simp [handlerV2, hp, generateVerificationLinkV2, emailContentV2] at hmem <;>
      exact hmem

/-- C3: for a valid email-bearing input, the generated token is
hex-encoded and of the configured fixed length — 16 random bytes giving
32 hex characters in V1, 20 bytes giving 40 in V2 — and the link is
deterministically
`http://<domain>/verify?email=<urlencoded-email>&token=<token>`. -/
theorem c3_token_hex_and_link_shape (env : Env) (now : Int) (email : JsValue)
    (bytes16 bytes20 : List Nat)
    (h16 : bytes16.length = 16) (h20 : bytes20.length = 20) :
    ((generateVerificationLinkV1 env bytes16 now email).token.length = 32 ∧
     (generateVerificationLinkV1 env bytes16 now email).token.data.all isHexDigitChar = true ∧
     (generateVerificationLinkV1 env bytes16 now email).link =
       "http://" ++ env.DOMAIN_NAME ++ "/verify?email=" ++
         encodeURIComponent (jsToString email) ++ "&token=" ++
         (generateVerificationLinkV1 env bytes16 now email).token) ∧
    ((generateVerificationLinkV2 env bytes20 now email).token.length = 40 ∧
     (generateVerificationLinkV2 env bytes20 now email).token.data.all isHexDigitChar = true ∧
     (generateVerificationLinkV2 env bytes20 now email).link =
       "http://" ++ env.DOMAIN_NAME ++ "/verify?email=" ++
         encodeURIComponent (jsToString email) ++ "&token=" ++
         (generateVerificationLinkV2 env bytes20 now email).token) := by
  constructor
  · refine ⟨?_, toHex_all_hex bytes16, rfl⟩
    simp [generateVerificationLinkV1, toHex_length, h16]
  · refine ⟨?_, toHex_all_hex bytes20, rfl⟩
    simp [generateVerificationLinkV2, toHex_length, h20]

/-- C3 witness: concrete 16- and 20-byte draws produce 32- and 40-char
tokens. -/
theorem c3_token_hex_and_link_shape_witness :
    (generateVerificationLinkV1 env0 (randDet 16) 0 (.str "user@example.com")).token.length = 32 ∧
    (generateVerificationLinkV2 env0 (randDet 20) 0 (.str "user@example.com")).token.length = 40 :=
  ⟨(c3_token_hex_and_link_shape env0 0 (.str "user@example.com") (randDet 16) (randDet 20)
      (by simp [randDet]) (by simp [randDet])).1.1,
   (c3_token_hex_and_link_shape env0 0 (.str "user@example.com") (randDet 16) (randDet 20)
      (by simp [randDet]) (by simp [randDet])).2.1⟩

/-- C4: the expiry time of the generated credentials, and of any row the
handler hands to the datastore in a successful invocation, is exactly the
creation time plus the fixed 2-minute window (120000 ms). -/
theorem c4_expiry_is_creation_plus_two_minutes (env : Env) (rand : Nat → List Nat)
    (now : Int) (bytes : List Nat) (email : JsValue)
    (emailOk syncOk createOk : Bool) (event : Event) (row1 row2 : TrackingRow)
    (_hres1 : (handlerV1 env rand now emailOk syncOk createOk event).result = .ok ())
    (hmem1 : Call.dbCreate row1 ∈ (handlerV1 env rand now emailOk syncOk createOk event).calls)
    (_hres2 : (handlerV2 env rand now emailOk syncOk createOk event).result = .ok ())
    (hmem2 : Call.dbCreate row2 ∈ (handlerV2 env rand now emailOk syncOk createOk event).calls) :
    (generateVerificationLinkV1 env bytes now email).expiryTime = now + 2 * 60 * 1000 ∧
    (generateVerificationLinkV2 env bytes now email).expiryTime = now + 2 * 60 * 1000 ∧
    row1.expiryTime = now + 2 * 60 * 1000 ∧
    row2.expiryTime = now + 2 * 60 * 1000 := by
  obtain ⟨email1, hp1, hrow1⟩ :=
    handlerV1_dbCreate_mem env rand now emailOk syncOk createOk event row1 hmem1
  obtain ⟨email2, hp2, hrow2⟩ :=
    handlerV2_dbCreate_mem env rand now emailOk syncOk createOk event row2 hmem2
  subst hrow1
  subst hrow2
  exact ⟨rfl, rfl, rfl, rfl⟩

/-- The row V1 persists for `event0` under `randDet` at time 0. -/
def row1w : TrackingRow :=
  { email := .str "user@example.com", token := "000102030405060708090a0b0c0d0e0f",
    expiryTime := 120000 }

/-- The row V2 persists for `event0` under `randDet` at time 0. -/
def row2w : TrackingRow :=
  { email := .str "user@example.com", token := "000102030405060708090a0b0c0d0e0f10111213",
    expiryTime := 120000 }

/-- C4 witness: in the concrete successful invocation on `event0` at
time 0, both persisted rows carry expiry `0 + 120000`. -/
theorem c4_expiry_is_creation_plus_two_minutes_witness :
    row1w.expiryTime = 0 + 2 * 60 * 1000 ∧ row2w.expiryTime = 0 + 2 * 60 * 1000 :=
  ⟨(c4_expiry_is_creation_plus_two_minutes env0 randDet 0 [] (.str "x") true true true event0
      row1w row2w rfl (List.Mem.tail _ (List.Mem.tail _ (List.Mem.head _)))
      rfl (List.Mem.tail _ (List.Mem.tail _ (List.Mem.head _)))).2.2.1,
   (c4_expiry_is_creation_plus_two_minutes env0 randDet 0 [] (.str "x") true true true event0
      row1w row2w rfl (List.Mem.tail _ (List.Mem.tail _ (List.Mem.head _)))
      rfl (List.Mem.tail _ (List.Mem.tail _ (List.Mem.head _)))).2.2.2⟩

/-- C5: every row either variant hands to the datastore carries exactly
the email extracted from the event and the token and expiry generated in
that same invocation, and all three fields are populated (the email is
truthy, the token non-empty of the variant's fixed length, the expiry the
creation time plus 120000 ms).  The call alphabet contains no update or
delete operation, matching the source. -/
theorem c5_persisted_row_matches_invocation (env : Env) (rand : Nat → List Nat)
    (now : Int) (emailOk syncOk createOk : Bool)
    (r : EventRecord) (rs : List EventRecord) (v : JsValue) (row1 row2 : TrackingRow)
    (hmsg : r.Sns.Message = .json v)
    (h16 : (rand 16).length = 16) (h20 : (rand 20).length = 20)
    (hmem1 : Call.dbCreate row1 ∈
      (handlerV1 env rand now emailOk syncOk createOk { Records := .array (r :: rs) }).calls)
    (hmem2 : Call.dbCreate row2 ∈
      (handlerV2 env rand now emailOk syncOk createOk { Records := .array (r :: rs) }).calls) :
    (row1.email = jsGetField v "email" ∧ truthy row1.email = true ∧
     row1.token = toHex (rand 16) ∧ row1.token.length = 32 ∧ row1.token ≠ "" ∧
     row1.expiryTime = now + 2 * 60 * 1000) ∧
    (row2.email = jsGetField v "email" ∧ truthy row2.email = true ∧
     row2.token = toHex (rand 20) ∧ row2.token.length = 40 ∧ row2.token ≠ "" ∧
     row2.expiryTime = now + 2 * 60 * 1000) := by
  obtain ⟨email1, hp1, hrow1⟩ :=
    handlerV1_dbCreate_mem env rand now emailOk syncOk createOk _ row1 hmem1
  obtain ⟨email2, hp2, hrow2⟩ :=
    handlerV2_dbCreate_mem env rand now emailOk syncOk createOk _ row2 hmem2
  have he1 : email1 = jsGetField v "email" := parseEvent_cons_json r rs v email1 hmsg hp1
  have he2 : email2 = jsGetField v "email" := parseEvent_cons_json r rs v email2 hmsg hp2
  have ht1 : truthy email1 = true := parseEvent_ok_truthy _ _ hp1
  have ht2 : truthy email2 = true := parseEvent_ok_truthy _ _ hp2
  have hne16 : rand 16 ≠ [] := by intro hnil; rw [hnil] at h16; simp at h16
  have hne20 : rand 20 ≠ [] := by intro hnil; rw [hnil] at h20; simp at h20
  subst hrow1
  subst hrow2
  refine ⟨⟨he1, ht1, rfl, ?_, toHex_ne_empty _ hne16, rfl⟩,
          ⟨he2, ht2, rfl, ?_, toHex_ne_empty _ hne20, rfl⟩⟩
  · simp [toHex_length, h16]
  · simp [toHex_length, h20]

/-- C5 witness: the concrete successful invocation on `event0` persists
exactly the extracted email with the generated token and expiry. -/
theorem c5_persisted_row_matches_invocation_witness :
    (row1w.email = jsGetField (.obj [("email", .str "user@example.com")]) "email" ∧
     truthy row1w.email = true ∧
     row1w.token = toHex (randDet 16) ∧ row1w.token.length = 32 ∧ row1w.token ≠ "" ∧
     row1w.expiryTime = 0 + 2 * 60 * 1000) ∧
    (row2w.email = jsGetField (.obj [("email", .str "user@example.com")]) "email" ∧
     truthy row2w.email = true ∧
     row2w.token = toHex (randDet 20) ∧ row2w.token.length = 40 ∧ row2w.token ≠ "" ∧
     row2w.expiryTime = 0 + 2 * 60 * 1000) :=
  c5_persisted_row_matches_invocation env0 randDet 0 true true true
    record0 [] (.obj [("email", .str "user@example.com")]) row1w row2w rfl
    (by simp [randDet]) (by simp [randDet])
    (List.Mem.tail _ (List.Mem.tail _ (List.Mem.head _)))
    (List.Mem.tail _ (List.Mem.tail _ (List.Mem.head _)))

/-- C9: the two handler variants implement the same core process logic —
when the injected byte draws coincide (`rand1 16 = rand2 20`, i.e. the
same token string is generated), both variants produce the same caller
outcome, the same internal error classification and the same outbound
calls (hence the same verification link, expiry and email payload); the
link/payload builders are pointwise equal; the variants differ only in
the requested token byte length, in logging, and in secret retrieval. -/
theorem c9_variants_agree (env : Env) (rand1 rand2 : Nat → List Nat) (now : Int)
    (emailOk syncOk createOk : Bool) (event : Event)
    (hrand : rand1 16 = rand2 20) :
    (handlerV1 env rand1 now emailOk syncOk createOk event).result =
      (handlerV2 env rand2 now emailOk syncOk createOk event).result ∧
    (handlerV1 env rand1 now emailOk syncOk createOk event).internalErr =
      (handlerV2 env rand2 now emailOk syncOk createOk event).internalErr ∧
    (handlerV1 env rand1 now emailOk syncOk createOk event).calls =
      (handlerV2 env rand2 now emailOk syncOk createOk event).calls ∧
    (∀ (bytes : List Nat) (t : Int) (email : JsValue),
      generateVerificationLinkV1 env bytes t email =
        generateVerificationLinkV2 env bytes t email) ∧
    (∀ (email : JsValue) (link : String),
      emailContentV1 env email link = emailContentV2 env email link) := by
  refine ⟨?_, ?_, ?_, fun bytes t email => rfl, fun email link => rfl⟩ <;>
    cases hp : parseEvent event with
    | error e => simp [handlerV1, handlerV2, hp]
    | ok email =>
      cases emailOk <;> cases syncOk <;> cases createOk <;>
        simp [handlerV1, handlerV2, hp, hrand,
          generateVerificationLinkV1, generateVerificationLinkV2,
          emailContentV1, emailContentV2]

/-- C9 witness: with byte sources that draw the same 20 bytes, the
concrete invocations of the two variants agree on outcome and calls. -/
theorem c9_variants_agree_witness :
    (handlerV1 env0 (fun _ => List.range 20) 0 true true true event0).result =
      (handlerV2 env0 randDet 0 true true true event0).result ∧
    (handlerV1 env0 (fun _ => List.range 20) 0 true true true event0).calls =
      (handlerV2 env0 randDet 0 true true true event0).calls :=
  ⟨(c9_variants_agree env0 (fun _ => List.range 20) randDet 0 true true true event0 rfl).1,
   (c9_variants_agree env0 (fun _ => List.range 20) randDet 0 true true true event0 rfl).2.2.1⟩

/-- C10: a message that parses to an object whose `email` field holds a
falsy value (empty string, `null`, `0`, `false`, …) is rejected exactly
like a message lacking the field — same `missingEmail` internal error,
generic rejection, and no outbound calls — because `if (!email)` tests
truthiness, not presence. -/
theorem c10_falsy_email_rejected (env : Env) (rand : Nat → List Nat) (now : Int)
    (emailOk syncOk createOk : Bool) (r : EventRecord) (rs : List EventRecord)
    (fields : List (String × JsValue)) (fv : JsValue)
    (hmsg : r.Sns.Message = .json (.obj fields))
    (hfield : jsGetField (.obj fields) "email" = fv)
    (hfalsy : truthy fv = false) :
    (handlerV1 env rand now emailOk syncOk createOk
        { Records := .array (r :: rs) }).internalErr = some .missingEmail ∧
    (handlerV1 env rand now emailOk syncOk createOk
        { Records := .array (r :: rs) }).result = .error failMsg ∧
    (handlerV1 env rand now emailOk syncOk createOk
        { Records := .array (r :: rs) }).calls = [] ∧
    (handlerV2 env rand now emailOk syncOk createOk
        { Records := .array (r :: rs) }).internalErr = some .missingEmail ∧
    (handlerV2 env rand now emailOk syncOk createOk
        { Records := .array (r :: rs) }).result = .error failMsg ∧
    (handlerV2 env rand now emailOk syncOk createOk
        { Records := .array (r :: rs) }).calls = [] := by
  have hp : parseEvent { Records := .array (r :: rs) } = .error .missingEmail := by
    simp [parseEvent, hmsg, hfield, hfalsy]
  refine ⟨?_, ?_, ?_, ?_, ?_, ?_⟩ <;> simp [handlerV1, handlerV2, hp]

/-- C10 witness: `{"email": ""}` is rejected with the missing-email
error and no outbound calls by both variants. -/
theorem c10_falsy_email_rejected_witness :
    (handlerV1 env0 randDet 0 true true true
        { Records := .array
            [{ Sns := { Message := .json (.obj [("email", .str "")]) } }] }).internalErr
      = some .missingEmail ∧
    (handlerV1 env0 randDet 0 true true true
        { Records := .array
            [{ Sns := { Message := .json (.obj [("email", .str "")]) } }] }).result
      = .error failMsg ∧
    (handlerV1 env0 randDet 0 true true true
        { Records := .array
            [{ Sns := { Message := .json (.obj [("email", .str "")]) } }] }).calls = [] ∧
    (handlerV2 env0 randDet 0 true true true
        { Records := .array
            [{ Sns := { Message := .json (.obj [("email", .str "")]) } }] }).internalErr
      = some .missingEmail ∧
    (handlerV2 env0 randDet 0 true true true
        { Records := .array
            [{ Sns := { Message := .json (.obj [("email", .str "")]) } }] }).result
      = .error failMsg ∧
    (handlerV2 env0 randDet 0 true true true
        { Records := .array
            [{ Sns := { Message := .json (.obj [("email", .str "")]) } }] }).calls = [] :=
  c10_falsy_email_rejected env0 randDet 0 true true true
    { Sns := { Message := .json (.obj [("email", .str "")]) } } []
    [("email", .str "")] (.str "") rfl rfl rfl

/-- C7 counterexample: in the dotenv variant (src/index.js), a failing
email send rejects the invocation, yet the entire console log of the
invocation contains no failure entry — the catch blocks of that variant
log nothing, so the internal error is not "logged locally with context"
as the claim states for every failure. -/
theorem c7_counterexample_v1_logs_nothing :
    (handlerV1 env0 randDet 0 false true true event0).internalErr
      = some .emailSendFailed ∧
    (handlerV1 env0 randDet 0 false true true event0).result = .error failMsg ∧
    (handlerV1 env0 randDet 0 false true true event0).logs.all
      (fun l => ! l.isFailureLog) = true :=
  ⟨rfl, rfl, rfl⟩

/-- C7 amended: every internal failure is re-raised to the caller as the
single generic failure and no invocation returns partial success, in
both variants; the secrets variant (src/unnamed/part_000) additionally
logs the failed stage's error message and stack in its catch block,
while the dotenv variant (src/index.js) re-raises without logging any
failure entry. -/
theorem c7_amended_generic_rethrow (env : Env) (rand : Nat → List Nat) (now : Int)
    (emailOk syncOk createOk : Bool) (event : Event) (e : InternalError) :
    ((handlerV2 env rand now emailOk syncOk createOk event).internalErr = some e →
      (handlerV2 env rand now emailOk syncOk createOk event).result = .error failMsg ∧
      LogEntry.handlingError e.message ∈
        (handlerV2 env rand now emailOk syncOk createOk event).logs ∧
      LogEntry.errorStack ∈
        (handlerV2 env rand now emailOk syncOk createOk event).logs) ∧
    ((handlerV1 env rand now emailOk syncOk createOk event).internalErr = some e →
      (handlerV1 env rand now emailOk syncOk createOk event).result = .error failMsg ∧
      (handlerV1 env rand now emailOk syncOk createOk event).logs.all
        (fun l => ! l.isFailureLog) = true) ∧
    ((handlerV1 env rand now emailOk syncOk createOk event).internalErr = none →
      (handlerV1 env rand now emailOk syncOk createOk event).result = .ok ()) ∧
    ((handlerV2 env rand now emailOk syncOk createOk event).internalErr = none →
      (handlerV2 env rand now emailOk syncOk createOk event).result = .ok ()) := by
  refine ⟨?_, ?_, ?_, ?_⟩ <;>
  · intro h
    cases hp : parseEvent event with
    | error e2 =>
      simp_all [handlerV1, handlerV2, hp, LogEntry.isFailureLog]
    | ok email =>
      cases emailOk <;> cases syncOk <;> cases createOk <;>
        simp_all [handlerV1, handlerV2, hp, LogEntry.isFailureLog]

/-- C7 amended witness: the concrete email-send failure is re-raised
generically by both variants, logged with the stage message by V2 and
not logged at all by V1. -/
theorem c7_amended_generic_rethrow_witness :
    ((handlerV2 env0 randDet 0 false true true event0).result = .error failMsg ∧
     LogEntry.handlingError InternalError.emailSendFailed.message ∈
       (handlerV2 env0 randDet 0 false true true event0).logs ∧
     LogEntry.errorStack ∈ (handlerV2 env0 randDet 0 false true true event0).logs) ∧
    ((handlerV1 env0 randDet 0 false true true event0).result = .error failMsg ∧
     (handlerV1 env0 randDet 0 false true true event0).logs.all
       (fun l => ! l.isFailureLog) = true) :=
  ⟨(c7_amended_generic_rethrow env0 randDet 0 false true true event0 .emailSendFailed).1 rfl,
   (c7_amended_generic_rethrow env0 randDet 0 false true true event0 .emailSendFailed).2.1 rfl⟩

/-- C6 (code bug): failure of startup-time secret retrieval is NOT fatal
to instance initialization — the async IIFE swallows the error after
logging it, module evaluation completes with both secrets unset, and a
subsequent valid-event invocation of the handler still proceeds to
invoke the email provider and fails downstream with the generic
`Verification process failed`, exactly the cryptic downstream failure
the claim rules out. -/
theorem c6_secret_failure_not_fatal :
    initSecrets emptyStore =
      { rdsPassword := none, sendGridApiKey := none
        logs := [.secretError "rds-db-password",
          .initError "Failed to retrieve secret: rds-db-password"] } ∧
    (handlerV2 env0 randDet 0 false true true event0).calls =
      [Call.emailSend (emailContentV2 env0 (.str "user@example.com")
        (generateVerificationLinkV2 env0 (randDet 20) 0 (.str "user@example.com")).link)] ∧
    (handlerV2 env0 randDet 0 false true true event0).result = .error failMsg :=
  ⟨rfl, rfl, rfl⟩
